import Mathlib

/-
  Verification development for the Girl Math / WoWie Chrome extension
  content script (frontend/src/content/content.ts).

  The script classifies checkout pages, extracts a cart total from page
  text, runs a three-step onboarding wizard, and shows an investment
  perspective popup with a network call that falls back to fixed values.
  The definitions below are a shallow embedding of that code: pages are
  records of the data the script reads from the DOM, regular expressions
  over page text become explicit character scanners, JavaScript numbers
  for currency amounts become exact cent counts (the price pattern only
  admits whole dollars or exactly two decimals), and the stateful popup
  lifecycle becomes an explicit step function on a controller state.
-/

namespace GirlMath

/-! ## Character and string utilities

JavaScript string operations used by the content script, modelled over
`List Char`.  Only ASCII case folding is needed by the inputs involved. -/

/-- ASCII lower casing of one character, as used by `toLowerCase` on the
ASCII strings the script manipulates. -/
def lcChar (c : Char) : Char :=
  if 'A' ≤ c && c ≤ 'Z' then Char.ofNat (c.toNat + 32) else c

/-- Lower case a character list. -/
def lcL (l : List Char) : List Char := l.map lcChar

/-- Lower case a string (`String.toLowerCase` in the script). -/
def lcS (s : String) : String := ⟨lcL s.data⟩

/-- Does the second list start with the first list? -/
def leadsWith : List Char → List Char → Bool
  | [], _ => true
  | _ :: _, [] => false
  | p :: ps, c :: cs => p = c && leadsWith ps cs

/-- Does `l` contain `pat` as a contiguous sublist?  This is
`String.includes` / a literal regular expression test in JavaScript. -/
def hasSub : List Char → List Char → Bool
  | [], pat => pat.isEmpty
  | c :: rest, pat => leadsWith pat (c :: rest) || hasSub rest pat

/-- `String.includes` over strings. -/
def strContains (s pat : String) : Bool := hasSub s.data pat.data

/-- Does some suffix of `l` satisfy `p`?  Used to run an anchored
pattern matcher at every position of a text. -/
def anySuffix (p : List Char → Bool) : List Char → Bool
  | [] => p []
  | c :: r => p (c :: r) || anySuffix p r

/-- Index of the first occurrence of `pat` in `l`
(JavaScript `String.indexOf`). -/
def idxOfSub (l pat : List Char) : Option Nat :=
  go l 0
where
  go : List Char → Nat → Option Nat
    | [], i => if pat.isEmpty then some i else none
    | c :: r, i => if leadsWith pat (c :: r) then some i else go r (i + 1)

/-- ASCII whitespace, standing in for the regex class backslash-s on the
page texts involved. -/
def isWsChar (c : Char) : Bool :=
  c = ' ' || c = '\t' || c = '\n' || c = '\r'

/-- `Math.max` over a JavaScript spread of a nonempty price list; the
empty case never occurs in the script (it is guarded by a length check)
and is given the JavaScript identity of `Math.max`, negative infinity,
collapsed here to 0 since all call sites guard nonemptiness. -/
def natMax : List Nat → Nat
  | [] => 0
  | x :: xs => xs.foldl max x

/-- JavaScript `Math.round`: round half towards positive infinity. -/
def jsRound {α : Type} [LinearOrderedField α] [FloorRing α] (x : α) : ℤ :=
  ⌊x + 1 / 2⌋

/-! ## Page model

The content script reads from the DOM: the location (href, pathname),
the document title, the elements returned by `querySelectorAll` with the
attributes the selectors inspect, each element textContent, and the body
textContent.  A `Page` records exactly those observations; `elements`
lists the elements of `querySelectorAll` with the universal selector in
document order. -/

structure Elem where
  tag : String
  className : String
  idAttr : String
  dataTestid : Option String
  action : Option String
  textContent : String
deriving DecidableEq

structure Page where
  href : String
  pathname : String
  title : String
  elements : List Elem
  bodyText : String
deriving DecidableEq

/-! ## Page classifier (`isCheckoutPage`) -/

/-- `CHECKOUT_URL_PATTERNS` from the script.  Each regex is a literal,
case-insensitive substring test; case insensitivity is realised by the
script lower-casing the url and pathname first. -/
def checkoutUrlPatterns : List String :=
  ["/checkout", "/cart", "/basket", "/bag", "/shopping-cart",
   "/shoppingcart", "/payment", "/review", "/order", "checkout"]

/-- The first phase of `isCheckoutPage`: some pattern matches the
lower-cased href or pathname. -/
def urlPatternHit (p : Page) : Bool :=
  let url := lcS p.href
  let pathname := lcS p.pathname
  checkoutUrlPatterns.any fun pat =>
    strContains url pat || strContains pathname pat

/-- Which attribute a CSS attribute-contains selector inspects. -/
inductive AttrSel
  | dataTestid
  | className
  | idAttr
deriving DecidableEq

/-- One selector of `CHECKOUT_SELECTORS`: either an attribute-contains
selector, or a `form[action*=...]` selector. -/
inductive Sel
  | attr (a : AttrSel) (needle : String)
  | formAction (needle : String)
deriving DecidableEq

/-- `CHECKOUT_SELECTORS` from the script. -/
def checkoutSelectors : List Sel :=
  [.attr .dataTestid "checkout", .attr .dataTestid "cart",
   .attr .className "checkout", .attr .className "cart",
   .attr .idAttr "checkout", .attr .idAttr "cart", .attr .idAttr "basket",
   .formAction "checkout", .formAction "cart"]

/-- CSS attribute-contains matching (`[attr*="needle"]` is a
case-sensitive substring test on the attribute value; a missing
attribute never matches). -/
def elemMatchesSel (el : Elem) : Sel → Bool
  | .attr .dataTestid n =>
      match el.dataTestid with
      | some v => strContains v n
      | none => false
  | .attr .className n => strContains el.className n
  | .attr .idAttr n => strContains el.idAttr n
  | .formAction n =>
      el.tag = "form" &&
        (match el.action with
         | some v => strContains v n
         | none => false)

/-- The second phase of `isCheckoutPage`: some checkout selector matches
some element (`document.querySelectorAll(selector).length > 0`). -/
def selectorHit (p : Page) : Bool :=
  checkoutSelectors.any fun s => p.elements.any fun el => elemMatchesSel el s

/-- `isCheckoutPage` from the script: URL patterns first, then DOM
selectors, then a title check for checkout, cart or basket. -/
def isCheckoutPage (p : Page) : Bool :=
  if urlPatternHit p then true
  else if selectorHit p then true
  else
    let t := lcS p.title
    strContains t "checkout" || strContains t "cart" || strContains t "basket"

/-! ## Cart-total extractor (`extractCartTotal`)

The price regex of the script is
dollar sign, then 1 to 3 digits, then zero or more groups of a comma and
exactly 3 digits, then optionally a dot and exactly 2 digits, applied
globally.  Matches never contain a further dollar sign after their first
character, so scanning every position from the left and never skipping
yields exactly the JavaScript global-match list.  Prices are exact here:
the pattern only admits whole dollars or exactly two decimals, so
`parseFloat` of a match (commas removed) is represented exactly as a
count of cents; a JavaScript price value p corresponds to cents p*100,
and dollar bounds carry over by scaling. -/

/-- Consume leading comma groups of exactly three digits
(the `(?:,\d{3})*` part): returns the consumed characters, the digits
among them, and the rest. -/
def takeCommaGroups : List Char → List Char × List Char × List Char
  | ',' :: a :: b :: c :: rest =>
      if a.isDigit && b.isDigit && c.isDigit then
        let (m, d, r) := takeCommaGroups rest
        (',' :: a :: b :: c :: m, a :: b :: c :: d, r)
      else ([], [], ',' :: a :: b :: c :: rest)
  | l => ([], [], l)

/-- Consume an optional decimal part of exactly two digits
(the `(?:\.\d{2})?` part): returns the consumed characters and the two
decimal digits when present. -/
def takeDecPart : List Char → List Char × List Char
  | '.' :: a :: b :: _ =>
      if a.isDigit && b.isDigit then (['.', a, b], [a, b])
      else ([], [])
  | _ => ([], [])

/-- Numeric value of a digit list. -/
def natOfDigits (l : List Char) : Nat :=
  l.foldl (fun n c => n * 10 + (c.toNat - 48)) 0

/-- Try to match the price pattern body right after a dollar sign:
returns the matched characters (without the dollar sign) and the parsed
value in cents. -/
def matchPriceBody (l : List Char) : Option (List Char × Nat) :=
  let ds := (l.takeWhile Char.isDigit).take 3
  if ds.isEmpty then none
  else
    let rest := l.drop ds.length
    let (gm, gd, rest2) := takeCommaGroups rest
    let (dm, dd) := takeDecPart rest2
    some (ds ++ gm ++ dm, natOfDigits (ds ++ gd) * 100 + natOfDigits dd)

/-- All price matches of the global regex over a text, in order, as the
matched string (with its dollar sign) and its parsed value in cents. -/
def scanPrices : List Char → List (List Char × Nat)
  | [] => []
  | c :: rest =>
      (if c = '$' then
        match matchPriceBody rest with
        | some (m, v) => [('$' :: m, v)]
        | none => []
      else []) ++ scanPrices rest

/-- The installment regex of the script,
payment with optional s then whitespace then of, or installment, klarna,
afterpay, split, all case-insensitive. -/
def payOfAt (l : List Char) : Bool :=
  if leadsWith "payment".data l then
    let r := l.drop 7
    let r := if r.head? = some 's' then r.drop 1 else r
    match r with
    | c :: r2 => isWsChar c && leadsWith "of".data (r2.dropWhile isWsChar)
    | [] => false
  else false

/-- `/payments?\s+of|installment|klarna|afterpay|split/i.test text`. -/
def installmentTest (text : List Char) : Bool :=
  let t := lcL text
  anySuffix payOfAt t || hasSub t "installment".data ||
    hasSub t "klarna".data || hasSub t "afterpay".data ||
    hasSub t "split".data

/-- Parsed prices of a text passing the positive and below 100000
dollars filter of the script, in cents. -/
def pricesOf (text : List Char) : List Nat :=
  ((scanPrices text).map Prod.snd).filter fun p =>
    0 < p && p < 100000 * 100

/-- `totalKeywords` of the keyword phase. -/
def totalKeywords : List String :=
  ["estimated total", "order total", "cart total", "total"]

/-- Keyword phase of `extractCartTotal`: for each keyword in order, take
the elements whose lower-cased text contains the keyword and a dollar
sign; skip elements matching the installment pattern; return the largest
filtered price (in cents) of the first element that has one. -/
def cartTotalKeywordPhase (elems : List Elem) : Option Nat :=
  totalKeywords.findSome? fun kw =>
    (elems.filter fun el =>
        hasSub (lcL el.textContent.data) kw.data &&
          hasSub (lcL el.textContent.data) ['$']).findSome? fun el =>
      if installmentTest el.textContent.data then none
      else
        let ps := pricesOf el.textContent.data
        if ps.isEmpty then none else some (natMax ps)

/-- One selector of `PRICE_SELECTORS`: the attribute inspected, the
needle, and the selector source text (whose own characters are tested
for the substring total by the script). -/
structure PriceSel where
  attr : AttrSel
  needle : String
  selector : String
deriving DecidableEq

/-- `PRICE_SELECTORS` from the script. -/
def priceSelectors : List PriceSel :=
  [⟨.className, "total", "[class*=\"total\"]"⟩,
   ⟨.className, "subtotal", "[class*=\"subtotal\"]"⟩,
   ⟨.className, "amount", "[class*=\"amount\"]"⟩,
   ⟨.idAttr, "total", "[id*=\"total\"]"⟩,
   ⟨.idAttr, "subtotal", "[id*=\"subtotal\"]"⟩,
   ⟨.dataTestid, "total", "[data-testid*=\"total\"]"⟩,
   ⟨.dataTestid, "subtotal", "[data-testid*=\"subtotal\"]"⟩]

/-- Attribute-contains matching for the price selectors. -/
def elemMatchesPriceSel (el : Elem) (s : PriceSel) : Bool :=
  match s.attr with
  | .dataTestid =>
      match el.dataTestid with
      | some v => strContains v s.needle
      | none => false
  | .className => strContains el.className s.needle
  | .idAttr => strContains el.idAttr s.needle

/-- Selector phase of `extractCartTotal`: for each price selector, for
each matching element, skip installments, then require a total-like
class or id (without subtotal) or a selector containing total, and
return the largest filtered price found. -/
def cartTotalSelectorPhase (elems : List Elem) : Option Nat :=
  priceSelectors.findSome? fun sel =>
    (elems.filter fun el => elemMatchesPriceSel el sel).findSome? fun el =>
      let text := el.textContent
      let classId := el.className ++ " " ++ el.idAttr
      let isTotalElement :=
        hasSub (lcL classId.data) "total".data ||
          hasSub (lcL classId.data) "subtotal".data ||
          hasSub (lcL classId.data) "amount".data
      if installmentTest text.data then none
      else if (isTotalElement && !hasSub (lcL classId.data) "subtotal".data)
          || strContains sel.selector "total" then
        let ps := pricesOf text.data
        if ps.isEmpty then none else some (natMax ps)
      else none

/-- Last-resort phase of `extractCartTotal`: scan the whole body text,
keep prices in range whose surrounding context, fifty characters each
way from the start of the first occurrence of the matched string, does
not match the installment pattern, and return the largest kept price
(the script sorts descending and takes the head). -/
def cartTotalFallbackPhase (body : List Char) : Option Nat :=
  let ms := scanPrices body
  let kept := ms.filterMap fun mv =>
    if 0 < mv.2 && mv.2 < 100000 * 100 then
      let mi := (idxOfSub body mv.1).getD 0
      let ctx := lcL ((body.take (min body.length (mi + 50))).drop (mi - 50))
      if installmentTest ctx then none else some mv.2
    else none
  if kept.isEmpty then none else some (natMax kept)

/-- `extractCartTotal` from the script: keyword phase, then selector
phase, then the body-text last resort; `none` when nothing parses.  The
result is the extracted price in cents. -/
def extractCartTotal (p : Page) : Option Nat :=
  match cartTotalKeywordPhase p.elements with
  | some v => some v
  | none =>
      match cartTotalSelectorPhase p.elements with
      | some v => some v
      | none => cartTotalFallbackPhase p.bodyText.data

/-! ## Profile data model (shared/types.ts) and storage

`RiskProfile`, `Timeline` and `Focus` are the string union types of
shared/types.ts; their members are the option values of
`ONBOARDING_STEPS` (all nonempty strings, so presence and JavaScript
truthiness coincide). -/

inductive RiskProfile
  | safe
  | balanced
  | mainCharacter
deriving DecidableEq

inductive Timeline
  | short
  | mid
  | long
deriving DecidableEq

inductive Focus
  | impulse
  | confidence
  | future
  | goal
deriving DecidableEq

/-- `OnboardingData` from shared/types.ts. -/
structure OnboardingData where
  riskProfile : Option RiskProfile
  timeline : Option Timeline
  focus : Option Focus
  specificGoal : String
deriving DecidableEq

/-- The initial wizard draft of the script. -/
def emptyOnboardingData : OnboardingData :=
  { riskProfile := none, timeline := none, focus := none, specificGoal := "" }

/-- The extension key-value store fields the script touches
(`girlMathProfile`, `onboardingComplete`, `count`).  Keys absent from
storage read as undefined, hence the options; a missing
`onboardingComplete` is falsy, collapsed into the boolean. -/
structure Storage where
  girlMathProfile : Option OnboardingData
  onboardingComplete : Bool
  count : Option Nat
deriving DecidableEq

/-- `saveOnboardingData`: writes the whole draft and the completion flag
(the subsequent `checkAndShowPanel` callback is modelled at the
lifecycle layer). -/
def saveOnboardingData (d : OnboardingData) (st : Storage) : Storage :=
  { st with girlMathProfile := some d, onboardingComplete := true }

/-- `getUserProfile`: yields the stored profile only when
`onboardingComplete` is truthy and a profile object is present. -/
def getUserProfile (st : Storage) : Option OnboardingData :=
  if st.onboardingComplete then st.girlMathProfile else none

/-- The completeness check of `checkAndShowPanel`:
`!!(profile?.riskProfile && profile?.timeline && profile?.focus)`.
Every stored enum value is a nonempty string, so truthiness is
presence. -/
def isOnboardingComplete (p : Option OnboardingData) : Bool :=
  match p with
  | none => false
  | some d => d.riskProfile.isSome && d.timeline.isSome && d.focus.isSome

/-! ## Onboarding wizard -/

/-- The wizard state of the script: the module variables
`onboardingStep` and `onboardingData`. -/
structure WizardState where
  step : Nat
  data : OnboardingData
deriving DecidableEq

/-- `canProceedOnboarding`:
`stepFields[onboardingStep - 1] !== null`.  For a step outside 1..3 the
JavaScript index is out of range and yields undefined, which is not
null, hence `true`. -/
def canProceedOnboarding (s : WizardState) : Bool :=
  if s.step = 1 then s.data.riskProfile.isSome
  else if s.step = 2 then s.data.timeline.isSome
  else if s.step = 3 then s.data.focus.isSome
  else true

/-- One option button of `ONBOARDING_STEPS`. -/
structure OptionSpec where
  value : String
  label : String
  emoji : String
deriving DecidableEq

def riskOptions : List OptionSpec :=
  [⟨"safe", "Conservative", "🛡️"⟩,
   ⟨"balanced", "Balanced", "⚖️"⟩,
   ⟨"mainCharacter", "Aggressive", "📈"⟩]

def timelineOptions : List OptionSpec :=
  [⟨"short", "Short-term (0-2 years)", "⏰"⟩,
   ⟨"mid", "Mid-term (2-5 years)", "📅"⟩,
   ⟨"long", "Long-term (5+ years)", "🔮"⟩]

def focusOptions : List OptionSpec :=
  [⟨"impulse", "Reduce impulse buys", "🛍️"⟩,
   ⟨"confidence", "Build investing confidence", "💪"⟩,
   ⟨"future", "Understand my financial future", "🔭"⟩,
   ⟨"goal", "Save for a specific goal", "🎯"⟩]

/-- The data-value attribute written on an option button for each stored
enum member. -/
def riskValue : RiskProfile → String
  | .safe => "safe"
  | .balanced => "balanced"
  | .mainCharacter => "mainCharacter"

def timelineValue : Timeline → String
  | .short => "short"
  | .mid => "mid"
  | .long => "long"

def focusValue : Focus → String
  | .impulse => "impulse"
  | .confidence => "confidence"
  | .future => "future"
  | .goal => "goal"

/-- Reading a data-value string back as a `RiskProfile`.  The script
casts the string unchecked (`value as RiskProfile`); the rendered
buttons only ever carry the three values below, and on any other string
the model leaves the state unchanged. -/
def riskOfValue (v : String) : Option RiskProfile :=
  if v = "safe" then some .safe
  else if v = "balanced" then some .balanced
  else if v = "mainCharacter" then some .mainCharacter
  else none

def timelineOfValue (v : String) : Option Timeline :=
  if v = "short" then some .short
  else if v = "mid" then some .mid
  else if v = "long" then some .long
  else none

def focusOfValue (v : String) : Option Focus :=
  if v = "impulse" then some .impulse
  else if v = "confidence" then some .confidence
  else if v = "future" then some .future
  else if v = "goal" then some .goal
  else none

/-- The rendered onboarding popup (`createOnboardingPopup`) as a view
record: one entry per dynamic part of the markup the script
concatenates. -/
structure OnboardingView where
  headerTitle : String
  headerSubtitle : String
  progress : ℚ
  optionButtons : List (OptionSpec × Bool)
  goalInput : Option String
  backShown : Bool
  nextDisabled : Bool
  nextLabel : String

/-- `createOnboardingPopup`: step 1 renders the risk options, step 2 the
timeline options, any other step the focus options; the goal input is
rendered exactly when the step is 3 and the chosen focus is goal, with
its value attribute fed from the current `specificGoal`; the Next button
carries the disabled attribute exactly when `canProceedOnboarding` is
false. -/
def createOnboardingPopup (s : WizardState) : OnboardingView :=
  let currentValue : Option String :=
    if s.step = 1 then s.data.riskProfile.map riskValue
    else if s.step = 2 then s.data.timeline.map timelineValue
    else s.data.focus.map focusValue
  let opts :=
    if s.step = 1 then riskOptions
    else if s.step = 2 then timelineOptions
    else focusOptions
  { headerTitle := "Complete Setup",
    headerSubtitle := "Step " ++ Nat.repr s.step ++ " of 3",
    progress := (s.step : ℚ) / 3 * 100,
    optionButtons := opts.map fun o => (o, currentValue = some o.value),
    goalInput :=
      if s.step = 3 && s.data.focus = some .goal then some s.data.specificGoal
      else none,
    backShown := decide (s.step > 1),
    nextDisabled := !canProceedOnboarding s,
    nextLabel := if s.step = 3 then "Complete Setup" else "Next" }

/-- The option-button click handler of
`setupOnboardingEventListeners`: an empty value returns early; steps 1
to 3 store the clicked value into the bound field; at step 3 the value
goal re-renders the popup immediately (the returned flag). -/
def onOptionClick (s : WizardState) (v : String) : WizardState × Bool :=
  if v = "" then (s, false)
  else if s.step = 1 then
    (match riskOfValue v with
     | some r => ({ s with data := { s.data with riskProfile := some r } }, false)
     | none => (s, false))
  else if s.step = 2 then
    (match timelineOfValue v with
     | some t => ({ s with data := { s.data with timeline := some t } }, false)
     | none => (s, false))
  else if s.step = 3 then
    (match focusOfValue v with
     | some f => ({ s with data := { s.data with focus := some f } }, v = "goal")
     | none => (s, false))
  else (s, false)

/-- The Next-button click handler: a click while the step cannot proceed
returns early; before step 3 it advances and re-renders; at step 3 it
saves (the returned flag marks that `saveOnboardingData` ran). -/
def onNextClick (s : WizardState) : WizardState × Bool :=
  if !canProceedOnboarding s then (s, false)
  else if s.step < 3 then ({ s with step := s.step + 1 }, false)
  else (s, true)

/-- The Back-button click handler: `Math.max(1, onboardingStep - 1)`. -/
def onBackClick (s : WizardState) : WizardState :=
  { s with step := max 1 (s.step - 1) }

/-! ## Investment calculation (`calculateInvestment`)

Cart totals and API numbers are modelled as rationals; the fallback
arithmetic of the script (times 1.3, `Math.round`, divide by 100) is
exact on them. -/

/-- `InvestmentData` from the script. -/
structure InvestmentData where
  returnPercent : ℚ
  futureValue : ℚ
  stock : String
  mainBlurb : String
  yearsAgo : ℚ
  historicalPrice : ℚ
  currentPrice : ℚ

/-- The parsed JSON body of a successful recommendation response; absent
fields are `none`. -/
structure ApiData where
  percent_gain : ℚ
  current_value : ℚ
  ticker : String
  main_blurb : Option String
  years_ago : Option ℚ
  historical_stock_price : Option ℚ
  current_stock_price : Option ℚ

/-- JavaScript `x || d` on a possibly absent number: absent and zero are
falsy. -/
def jsOrNum (x : Option ℚ) (d : ℚ) : ℚ :=
  match x with
  | none => d
  | some v => if v = 0 then d else v

/-- JavaScript `x || d` on a possibly absent string: absent and empty
are falsy. -/
def jsOrStr (x : Option String) (d : String) : String :=
  match x with
  | none => d
  | some s => if s = "" then d else s

/-- How the fetch inside `calculateInvestment` ended: a parsed 2xx
response, the ten-second abort, a non-2xx response, or a transport
error.  Every constructor but `ok` reaches the catch block of the
script. -/
inductive FetchOutcome
  | ok (data : ApiData)
  | timeout
  | httpError (status : Nat) (body : String)
  | netError (msg : String)

/-- `mapRiskProfileToApproach` from the script. -/
def mapRiskProfileToApproach : Option RiskProfile → String
  | some .safe => "conservative"
  | some .balanced => "balanced"
  | some .mainCharacter => "aggressive"
  | none => "balanced"

/-- `mapTimelineToHorizon` from the script. -/
def mapTimelineToHorizon : Option Timeline → String
  | some .short => "short"
  | some .mid => "medium"
  | some .long => "long"
  | none => "medium"

/-- `mapFocusToGoal` from the script. -/
def mapFocusToGoal : Option Focus → String
  | some .impulse => "emergency"
  | some .confidence => "long_term_wealth"
  | some .future => "future_home"
  | some .goal => "other"
  | none => "other"

/-- The POST body `calculateInvestment` sends. -/
structure RequestBody where
  item_price : ℚ
  approach : String
  goal : String
  horizon : String
  shopping_site : String
  cart_total : ℚ

/-- Assembly of the request body from the cart total, the stored profile
and the shop hostname (www. stripped by the script). -/
def buildRequestBody (cartTotal : ℚ) (profile : Option OnboardingData)
    (shoppingSite : String) : RequestBody :=
  { item_price := cartTotal,
    approach := mapRiskProfileToApproach ((profile.map (·.riskProfile)).join),
    goal := mapFocusToGoal ((profile.map (·.focus)).join),
    horizon := mapTimelineToHorizon ((profile.map (·.timeline)).join),
    shopping_site := shoppingSite,
    cart_total := cartTotal }

/-- Two trailing digits of a cent count, zero padded. -/
def twoDigits (n : Nat) : String :=
  if n < 10 then "0" ++ Nat.repr n else Nat.repr n

/-- Render a nonnegative cent count as a fixed two-decimal string. -/
def fixed2OfCents (c : Nat) : String :=
  Nat.repr (c / 100) ++ "." ++ twoDigits (c % 100)

/-- JavaScript `Number.toFixed(2)` on the exact two-decimal rationals
the script feeds it (cart totals), idealised for other rationals as
rounding half up to cents. -/
def qToFixed2 (q : ℚ) : String :=
  if q < 0 then "-" ++ fixed2OfCents (jsRound (-q * 100)).toNat
  else fixed2OfCents (jsRound (q * 100)).toNat

/-- JavaScript default number printing for a nonnegative exact
two-decimal rational: no decimal point for integers, trailing zeros
dropped. -/
def qPosNumStr (q : ℚ) : String :=
  let c := (⌊q * 100⌋).toNat
  if c % 100 = 0 then Nat.repr (c / 100)
  else if c % 10 = 0 then
    Nat.repr (c / 100) ++ "." ++ Nat.repr (c / 10 % 10)
  else fixed2OfCents c

/-- JavaScript default number printing on the exact two-decimal
rationals the fallback produces. -/
def qNumStr (q : ℚ) : String :=
  if q < 0 then "-" ++ qPosNumStr (-q) else qPosNumStr q

/-- The hardcoded fallback result of `calculateInvestment`. -/
def fallbackInvestment (cartTotal : ℚ) : InvestmentData :=
  { returnPercent := 30,
    futureValue := (jsRound (cartTotal * (13 / 10) * 100) : ℚ) / 100,
    stock := "NVDA",
    mainBlurb :=
      qToFixed2 cartTotal ++ " in NVDA last 5 years would be ~" ++
        qNumStr ((jsRound (cartTotal * (13 / 10) * 100) : ℚ) / 100) ++
        " today. That\x27s 30% growth.",
    yearsAgo := 5,
    historicalPrice := 0,
    currentPrice := 0 }

/-- `calculateInvestment`: on a parsed 2xx response the fields are taken
from the JSON (gain rounded to one decimal, value to two); the abort,
a non-2xx response and every transport error all flow into the catch
block and produce the fallback.  The function is total: no error ever
escapes to the caller. -/
def calculateInvestment (outcome : FetchOutcome) (cartTotal : ℚ)
    (_profile : Option OnboardingData) : InvestmentData :=
  match outcome with
  | .ok d =>
      { returnPercent := (jsRound (d.percent_gain * 10) : ℚ) / 10,
        futureValue := (jsRound (d.current_value * 100) : ℚ) / 100,
        stock := d.ticker,
        mainBlurb := jsOrStr d.main_blurb "",
        yearsAgo := jsOrNum d.years_ago 5,
        historicalPrice := jsOrNum d.historical_stock_price 0,
        currentPrice := jsOrNum d.current_stock_price 0 }
  | .timeout => fallbackInvestment cartTotal
  | .httpError _ _ => fallbackInvestment cartTotal
  | .netError _ => fallbackInvestment cartTotal

/-! ## Six-month transition view (`transitionToInvestmentView`)

The second display stage.  `Math.pow` with fractional exponents is real
power; the computation is stated over any linearly ordered field with a
floor, parameterised by the power operation, and the claims are read at
the real numbers with `Real.rpow`. -/

/-- The six-month growth factor of the script:
`Math.pow(Math.pow(currentPrice / historicalPrice, 1 / (yearsAgo * 12)), 6)`. -/
def sixMonthGrowthOf {α : Type} [LinearOrderedField α]
    (pw : α → α → α) (cur hist yearsAgo : α) : α :=
  pw (pw (cur / hist) (1 / (yearsAgo * 12))) 6

/-- The figures of the WoWie investment view. -/
structure SixMonthView (α : Type) where
  historicalPrice6Months : α
  currentPrice : α
  futureValue6Months : α
  growthPercent6Months : α

/-- `transitionToInvestmentView`, data part: when both prices are
positive, interpolate six months back from the current price with the
growth factor; otherwise use the placeholder prices 152.89 and 354.65.
Future value and growth percent follow by the rounded formulas of the
script. -/
def transitionToInvestmentView {α : Type} [LinearOrderedField α]
    [FloorRing α] (pw : α → α → α)
    (cartTotal cur hist yearsAgo : α) : SixMonthView α :=
  let pair : α × α :=
    if 0 < cur ∧ 0 < hist then
      (cur / sixMonthGrowthOf pw cur hist yearsAgo, cur)
    else ((15289 : α) / 100, (35465 : α) / 100)
  let historicalPrice6Months := pair.1
  let currentPrice := pair.2
  let investmentAmount6Months := cartTotal
  { historicalPrice6Months := historicalPrice6Months,
    currentPrice := currentPrice,
    futureValue6Months :=
      (jsRound (investmentAmount6Months * (currentPrice / historicalPrice6Months) * 100) : α) / 100,
    growthPercent6Months :=
      (jsRound ((currentPrice / historicalPrice6Months - 1) * 100 * 10) : α) / 10 }

/-! ## Popup lifecycle controller -/

/-- Which popup variant currently occupies the panel; the investment
variant carries the cart total (in cents) it was created for. -/
inductive PanelKind
  | onboarding
  | investment (cartCents : Nat)
deriving DecidableEq

/-- The module-level controller state of the content script:
`isPanelVisible`, `userDismissedPopup`, the panel, and the wizard
variables. -/
structure CState where
  isPanelVisible : Bool
  userDismissedPopup : Bool
  panel : Option PanelKind
  wizard : WizardState
deriving DecidableEq

/-- `checkAndShowPanel`: on a non-checkout page hide the panel when
visible and clear the dismissal flag; on a checkout page return
unchanged when dismissed or already visible; otherwise read the profile
and show the investment popup (cart total falling back to 120 dollars)
when complete, else reset the wizard and show the onboarding popup.
The hide animation and its 300ms removal timer are collapsed into the
removal. -/
def checkAndShowPanel (page : Page) (st : Storage) (s : CState) : CState :=
  if !isCheckoutPage page then
    let s1 :=
      if s.isPanelVisible then { s with panel := none, isPanelVisible := false }
      else s
    { s1 with userDismissedPopup := false }
  else if s.userDismissedPopup || s.isPanelVisible then s
  else
    let profile := getUserProfile st
    if isOnboardingComplete profile then
      let cartCents :=
        match extractCartTotal page with
        | some v => v
        | none => 12000
      { s with panel := some (.investment cartCents), isPanelVisible := true }
    else
      { s with wizard := { step := 1, data := emptyOnboardingData },
               panel := some .onboarding, isPanelVisible := true }

/-- The triggers `init` wires up, other than the initial one-second
timer: a URL change seen by the mutation observer or a popstate event
(both clear the dismissal flag and re-check), the three-second interval
(which re-checks only when no panel is visible and nothing was
dismissed), the two-second fallback (which re-checks only when no panel
is visible and the page classifies as checkout), and a click on the
close button. -/
inductive Ev
  | navChange (page : Page) (st : Storage)
  | intervalTick (page : Page) (st : Storage)
  | fallbackCheck (page : Page) (st : Storage)
  | dismiss

/-- One controller step for one trigger. -/
def stepEv (s : CState) : Ev → CState
  | .navChange p st => checkAndShowPanel p st { s with userDismissedPopup := false }
  | .intervalTick p st =>
      if !s.isPanelVisible && !s.userDismissedPopup then checkAndShowPanel p st s
      else s
  | .fallbackCheck p st =>
      if !s.isPanelVisible && isCheckoutPage p then checkAndShowPanel p st s
      else s
  | .dismiss => { s with userDismissedPopup := true, panel := none, isPanelVisible := false }

/-- Navigation triggers: the ones that clear the dismissal flag. -/
def isNavEv : Ev → Bool
  | .navChange _ _ => true
  | _ => false

/-- A state in which the user has dismissed the popup and nothing is
shown. -/
def dismissedIdle (s : CState) : Bool :=
  s.userDismissedPopup && s.panel.isNone && !s.isPanelVisible

/-! ## Message handler -/

/-- The payload answered to GET_DATA. -/
structure GetDataPayload where
  title : String
  url : String
  isCheckout : Bool
deriving DecidableEq

/-- `MessageResponse` from shared/types.ts, with the GET_DATA payload. -/
structure MessageResponse where
  success : Bool
  data : Option GetDataPayload
  error : Option String
deriving DecidableEq

/-- The `chrome.runtime.onMessage` listener: GET_DATA answers with
title, url and the checkout classification; every other type answers
with the unknown-type error.  The handler never touches the controller
state, which it threads through unchanged. -/
def handleMessage (msgType : String) (page : Page) (s : CState) :
    MessageResponse × CState :=
  if msgType = "GET_DATA" then
    ({ success := true,
       data := some { title := page.title, url := page.href,
                      isCheckout := isCheckoutPage page },
       error := none }, s)
  else
    ({ success := false, data := none, error := some "Unknown message type" }, s)

/-! ## Concrete pages used by witnesses -/

/-- A plain content page: no checkout URL pattern, no matching element,
no checkout-like title. -/
def pageHome : Page :=
  { href := "https://example.com/home", pathname := "/home",
    title := "Welcome", elements := [], bodyText := "" }

/-- A cart page recognised by its URL alone. -/
def pageCart : Page :=
  { href := "https://shop.example/cart", pathname := "/cart",
    title := "Anything", elements := [], bodyText := "" }

/-! ## Claims about the page classifier -/

/-- C4: whenever some checkout URL pattern matches the lower-cased href
or pathname, `isCheckoutPage` answers true, whatever the DOM elements
and the title contain. -/
theorem checkout_url_pattern_forces_true (p : Page)
    (h : urlPatternHit p = true) : isCheckoutPage p = true := by
  unfold isCheckoutPage
  rw [h]
  rfl

/-- Witness for C4 at a concrete cart URL. -/
theorem checkout_url_pattern_forces_true_witness :
    urlPatternHit pageCart = true ∧ isCheckoutPage pageCart = true :=
  ⟨by decide, checkout_url_pattern_forces_true pageCart (by decide)⟩

/-- C3: with no URL pattern match, no selector match, and a title free
of all seven checkout-like substrings of the URL pattern list,
`isCheckoutPage` answers false. -/
theorem no_signal_means_not_checkout (p : Page)
    (h1 : urlPatternHit p = false) (h2 : selectorHit p = false)
    (h3 : ∀ kw ∈ (["checkout", "cart", "basket", "bag", "payment",
        "review", "order"] : List String),
      strContains (lcS p.title) kw = false) :
    isCheckoutPage p = false := by
  unfold isCheckoutPage
  rw [h1, h2]
  simp only [Bool.false_eq_true, if_false]
  have hc := h3 "checkout" (by simp)
  have hca := h3 "cart" (by simp)
  have hb := h3 "basket" (by simp)
  simp [hc, hca, hb]

/-- Witness for C3 at a concrete plain page. -/
theorem no_signal_means_not_checkout_witness :
    urlPatternHit pageHome = false ∧ selectorHit pageHome = false ∧
      isCheckoutPage pageHome = false :=
  ⟨by decide, by decide,
    no_signal_means_not_checkout pageHome (by decide) (by decide) (by decide)⟩

/-! ## Claims about the wizard -/

/-- C5: at each step 1 to 3 the rendered Next button is disabled exactly
when the field bound to that step is null, and a click on a disabled
Next leaves the wizard state unchanged and saves nothing. -/
theorem next_disabled_iff_field_null (s : WizardState) :
    (s.step = 1 →
      ((createOnboardingPopup s).nextDisabled = true ↔ s.data.riskProfile = none)) ∧
    (s.step = 2 →
      ((createOnboardingPopup s).nextDisabled = true ↔ s.data.timeline = none)) ∧
    (s.step = 3 →
      ((createOnboardingPopup s).nextDisabled = true ↔ s.data.focus = none)) ∧
    ((createOnboardingPopup s).nextDisabled = true → onNextClick s = (s, false)) := by
  have hnd : (createOnboardingPopup s).nextDisabled = !canProceedOnboarding s := rfl
  refine ⟨?_, ?_, ?_, ?_⟩
  · intro h
    rw [hnd]
    unfold canProceedOnboarding
    rw [h]
    cases s.data.riskProfile <;> simp
  · intro h
    rw [hnd]
    unfold canProceedOnboarding
    rw [h]
    cases s.data.timeline <;> simp
  · intro h
    rw [hnd]
    unfold canProceedOnboarding
    rw [h]
    cases s.data.focus <;> simp
  · intro h
    rw [hnd] at h
    have hcp : canProceedOnboarding s = false := by
      cases hc : canProceedOnboarding s
      · rfl
      · rw [hc] at h
        simp at h
    unfold onNextClick
    rw [hcp]
    rfl

/-- Witness for C5 at step 1 with an empty draft. -/
theorem next_disabled_iff_field_null_witness :
    ((createOnboardingPopup ⟨1, emptyOnboardingData⟩).nextDisabled = true ↔
      (⟨1, emptyOnboardingData⟩ : WizardState).data.riskProfile = none) ∧
    ((createOnboardingPopup ⟨1, emptyOnboardingData⟩).nextDisabled = true →
      onNextClick ⟨1, emptyOnboardingData⟩ = (⟨1, emptyOnboardingData⟩, false)) :=
  ⟨(next_disabled_iff_field_null ⟨1, emptyOnboardingData⟩).1 rfl,
   (next_disabled_iff_field_null ⟨1, emptyOnboardingData⟩).2.2.2⟩

/-- C9: at step 3, clicking the goal option re-renders immediately, and
the re-rendered popup shows the goal input pre-populated with the
draft current `specificGoal`, whatever that string is. -/
theorem goal_click_rerenders_with_goal_input (s : WizardState)
    (h : s.step = 3) :
    (onOptionClick s "goal").2 = true ∧
    (createOnboardingPopup (onOptionClick s "goal").1).goalInput =
      some s.data.specificGoal := by
  obtain ⟨step, data⟩ := s
  simp only at h
  subst h
  exact ⟨rfl, rfl⟩

/-- Witness for C9 with a nonempty pre-existing goal text. -/
theorem goal_click_rerenders_with_goal_input_witness :
    (onOptionClick ⟨3, { emptyOnboardingData with specificGoal := "Trip to Korea" }⟩ "goal").2 = true ∧
    (createOnboardingPopup
        (onOptionClick ⟨3, { emptyOnboardingData with specificGoal := "Trip to Korea" }⟩ "goal").1).goalInput =
      some "Trip to Korea" :=
  goal_click_rerenders_with_goal_input
    ⟨3, { emptyOnboardingData with specificGoal := "Trip to Korea" }⟩ rfl

/-! ## Claims about storage round-tripping -/

/-- C6: saving a draft whose three enum fields are all set and reading
the profile back through storage yields a profile the completeness
check accepts. -/
theorem save_then_reload_complete (d : OnboardingData) (st : Storage)
    (h1 : d.riskProfile.isSome = true) (h2 : d.timeline.isSome = true)
    (h3 : d.focus.isSome = true) :
    isOnboardingComplete (getUserProfile (saveOnboardingData d st)) = true := by
  unfold saveOnboardingData getUserProfile isOnboardingComplete
  simp [h1, h2, h3]

/-- Witness for C6 with a fully filled draft over empty storage. -/
theorem save_then_reload_complete_witness :
    isOnboardingComplete (getUserProfile (saveOnboardingData
      { riskProfile := some .balanced, timeline := some .long,
        focus := some .goal, specificGoal := "Trip to Korea" }
      { girlMathProfile := none, onboardingComplete := false, count := none })) = true :=
  save_then_reload_complete _ _ rfl rfl rfl

/-! ## Claim about the message handler -/

/-- C10: any message type other than GET_DATA is answered with the
unknown-type error and no state change; GET_DATA is answered with
success, the title, the url and the checkout classification, also
without a state change. -/
theorem message_handler_behaviour (t : String) (page : Page) (s : CState) :
    (t ≠ "GET_DATA" →
      handleMessage t page s =
        ({ success := false, data := none,
           error := some "Unknown message type" }, s)) ∧
    handleMessage "GET_DATA" page s =
      ({ success := true,
         data := some { title := page.title, url := page.href,
                        isCheckout := isCheckoutPage page },
         error := none }, s) := by
  constructor
  · intro h
    unfold handleMessage
    rw [if_neg h]
  · rfl

/-- Witness for C10 at the SET_DATA message type. -/
theorem message_handler_behaviour_witness :
    handleMessage "SET_DATA" pageHome
        ⟨false, false, none, ⟨1, emptyOnboardingData⟩⟩ =
      ({ success := false, data := none,
         error := some "Unknown message type" },
        (⟨false, false, none, ⟨1, emptyOnboardingData⟩⟩ : CState)) :=
  (message_handler_behaviour "SET_DATA" pageHome
      ⟨false, false, none, ⟨1, emptyOnboardingData⟩⟩).1 (by decide)

/-! ## Claims about the cart-total extractor -/

/-- The single price-bearing element of the installment scenario: a
grand total annotated with an installment breakdown in the same element
text. -/
def installmentElem : Elem :=
  { tag := "div", className := "", idAttr := "", dataTestid := none,
    action := none,
    textContent := "Total: $19.99 (4 payments of $5.00)" }

/-- A checkout page whose only prices sit inside the installment
element. -/
def installmentPage : Page :=
  { href := "https://shop.example/checkout", pathname := "/checkout",
    title := "Checkout", elements := [installmentElem],
    bodyText := "Total: $19.99 (4 payments of $5.00)" }

/-- C1 counterexample: on a page whose text contains
19.99 dollars followed by 4 payments of 5.00 dollars inside an element
matching the total keyword, the extractor does not return 19.99 (1999
cents); it returns nothing at all, because the installment pattern makes
the keyword phase skip the whole element and the last-resort phase drops
every price whose fifty-character context mentions the installment. -/
theorem installment_page_yields_no_total :
    hasSub (lcL installmentElem.textContent.data) "total".data = true ∧
    hasSub installmentElem.textContent.data
      "$19.99 (4 payments of $5.00)".data = true ∧
    installmentPage.elements = [installmentElem] ∧
    extractCartTotal installmentPage ≠ some 1999 ∧
    extractCartTotal installmentPage = none := by
  refine ⟨by decide, by decide, rfl, ?_, ?_⟩
  · decide
  · decide

/-- C1 amended: the installment filter excludes the element wholesale,
so neither 5.00 nor the grand total 19.99 is extracted from it; on a
page where that element is the only price source the extractor returns
null, whatever the location and title fields hold. -/
theorem installment_element_skipped_entirely
    (href pathname title : String) :
    extractCartTotal
        { href := href, pathname := pathname, title := title,
          elements := [installmentElem],
          bodyText := "Total: $19.99 (4 payments of $5.00)" } = none ∧
    extractCartTotal
        { href := href, pathname := pathname, title := title,
          elements := [installmentElem],
          bodyText := "Total: $19.99 (4 payments of $5.00)" } ≠ some 500 := by
  have h : extractCartTotal
      { href := href, pathname := pathname, title := title,
        elements := [installmentElem],
        bodyText := "Total: $19.99 (4 payments of $5.00)" } = none := rfl
  exact ⟨h, by rw [h]; simp⟩

/-! ## Claim about the investment fallback -/

/-- C2: each failing fetch outcome, the ten-second abort, a non-2xx
response and a transport error, produces the fallback result: growth
percent exactly 30, ticker NVDA, and future value the cart total times
1.3 rounded to two decimals.  The embedding of `calculateInvestment` is
total, matching the script catch block: no failure reaches the
caller. -/
theorem fetch_failure_produces_fallback (ct : ℚ)
    (profile : Option OnboardingData) (status : Nat) (body msg : String) :
    (calculateInvestment .timeout ct profile = fallbackInvestment ct ∧
     calculateInvestment (.httpError status body) ct profile = fallbackInvestment ct ∧
     calculateInvestment (.netError msg) ct profile = fallbackInvestment ct) ∧
    (fallbackInvestment ct).returnPercent = 30 ∧
    (fallbackInvestment ct).stock = "NVDA" ∧
    (fallbackInvestment ct).futureValue =
      (jsRound (ct * (13 / 10) * 100) : ℚ) / 100 :=
  ⟨⟨rfl, rfl, rfl⟩, rfl, rfl, rfl⟩

/-! ## Claim about the popup lifecycle -/

/-- `checkAndShowPanel` never raises the dismissal flag. -/
theorem checkAndShowPanel_keeps_flag_down (page : Page) (st : Storage)
    (s : CState) (h : s.userDismissedPopup = false) :
    (checkAndShowPanel page st s).userDismissedPopup = false := by
  unfold checkAndShowPanel
  cases hc : isCheckoutPage page
  · cases hv : s.isPanelVisible <;> simp [hv]
  · simp only [Bool.not_true, Bool.false_eq_true, if_false]
    rw [h]
    cases hv : s.isPanelVisible
    · simp only [Bool.false_or, Bool.false_eq_true, if_false]
      cases hoc : isOnboardingComplete (getUserProfile st) <;> simp [h]
    · simpa using h

/-- A dismissed idle state survives every non-navigation trigger. -/
theorem dismissedIdle_preserved (s : CState) (e : Ev)
    (hnav : isNavEv e = false) (h : dismissedIdle s = true) :
    dismissedIdle (stepEv s e) = true := by
  unfold dismissedIdle at h
  simp only [Bool.and_eq_true, Bool.not_eq_true',
    Option.isNone_iff_eq_none] at h
  obtain ⟨⟨hd, hp⟩, hv⟩ := h
  cases e with
  | navChange p st => simp [isNavEv] at hnav
  | intervalTick p st =>
      simp only [stepEv, hd, hv]
      simp [dismissedIdle, hd, hp, hv]
  | fallbackCheck p st =>
      simp only [stepEv, hv]
      cases hc : isCheckoutPage p
      · simp [dismissedIdle, hd, hp, hv]
      · simp only [Bool.not_false, Bool.true_and, if_true]
        unfold checkAndShowPanel
        rw [hc]
        simp [dismissedIdle, hd, hp, hv]
  | dismiss =>
      simp [stepEv, dismissedIdle]

/-- C7: on a non-checkout page the run clears the dismissal flag, ends
with no visible panel, and removes the panel if one was visible; on a
checkout page a run with the flag up or the panel visible changes
nothing; from a dismissed idle state, any sequence of non-navigation
triggers shows no popup and keeps the flag up; and a navigation trigger
always ends with the flag down. -/
theorem popup_lifecycle_behaviour (page : Page) (st : Storage) (s : CState) :
    (isCheckoutPage page = false →
      (checkAndShowPanel page st s).userDismissedPopup = false ∧
      (checkAndShowPanel page st s).isPanelVisible = false ∧
      (s.isPanelVisible = true → (checkAndShowPanel page st s).panel = none)) ∧
    (isCheckoutPage page = true →
      (s.userDismissedPopup || s.isPanelVisible) = true →
      checkAndShowPanel page st s = s) ∧
    (∀ evs : List Ev, (∀ e ∈ evs, isNavEv e = false) →
      dismissedIdle s = true → dismissedIdle (evs.foldl stepEv s) = true) ∧
    (∀ p2 st2, (stepEv s (Ev.navChange p2 st2)).userDismissedPopup = false) := by
  refine ⟨?_, ?_, ?_, ?_⟩
  · intro h
    unfold checkAndShowPanel
    rw [h]
    cases hv : s.isPanelVisible <;> simp [hv]
  · intro h1 h2
    unfold checkAndShowPanel
    rw [h1, h2]
    simp
  · intro evs
    induction evs generalizing s with
    | nil => intro _ h; simpa using h
    | cons e rest ih =>
        intro hall h
        have he : isNavEv e = false := hall e (by simp)
        have hrest : ∀ x ∈ rest, isNavEv x = false := by
          intro x hx
          exact hall x (by simp [hx])
        simpa using ih (stepEv s e) hrest (dismissedIdle_preserved s e he h)
  · intro p2 st2
    exact checkAndShowPanel_keeps_flag_down p2 st2 _ rfl

/-- Witness for C7: the non-checkout branch at a home page with a
visible panel, the no-op branch at a cart page in a dismissed state, a
dismissed idle state surviving a concrete non-navigation trigger list,
and a navigation trigger clearing the flag. -/
theorem popup_lifecycle_behaviour_witness :
    ((checkAndShowPanel pageHome
        { girlMathProfile := none, onboardingComplete := false, count := none }
        ⟨true, true, some .onboarding, ⟨1, emptyOnboardingData⟩⟩).userDismissedPopup = false ∧
     (checkAndShowPanel pageHome
        { girlMathProfile := none, onboardingComplete := false, count := none }
        ⟨true, true, some .onboarding, ⟨1, emptyOnboardingData⟩⟩).isPanelVisible = false ∧
     ((⟨true, true, some .onboarding, ⟨1, emptyOnboardingData⟩⟩ : CState).isPanelVisible = true →
       (checkAndShowPanel pageHome
        { girlMathProfile := none, onboardingComplete := false, count := none }
        ⟨true, true, some .onboarding, ⟨1, emptyOnboardingData⟩⟩).panel = none)) ∧
    checkAndShowPanel pageCart
        { girlMathProfile := none, onboardingComplete := false, count := none }
        ⟨false, true, none, ⟨1, emptyOnboardingData⟩⟩ =
      ⟨false, true, none, ⟨1, emptyOnboardingData⟩⟩ ∧
    dismissedIdle
      ([Ev.intervalTick pageCart
          { girlMathProfile := none, onboardingComplete := false, count := none },
        Ev.fallbackCheck pageCart
          { girlMathProfile := none, onboardingComplete := false, count := none },
        Ev.dismiss].foldl stepEv
        ⟨false, true, none, ⟨1, emptyOnboardingData⟩⟩) = true :=
  ⟨(popup_lifecycle_behaviour pageHome
      { girlMathProfile := none, onboardingComplete := false, count := none }
      ⟨true, true, some .onboarding, ⟨1, emptyOnboardingData⟩⟩).1 (by decide),
   (popup_lifecycle_behaviour pageCart
      { girlMathProfile := none, onboardingComplete := false, count := none }
      ⟨false, true, none, ⟨1, emptyOnboardingData⟩⟩).2.1 (by decide) (by decide),
   (popup_lifecycle_behaviour pageCart
      { girlMathProfile := none, onboardingComplete := false, count := none }
      ⟨false, true, none, ⟨1, emptyOnboardingData⟩⟩).2.2.1 _
      (by intro e he; fin_cases he <;> rfl) (by decide)⟩

/-! ## Claim about the six-month interpolation -/

/-- C8: with both prices positive (and a positive year count, so the
JavaScript exponent is finite), the staged powers of the script compose
into one geometric interpolation, the six-month historical price is the
current price divided by that factor, and future value and growth
percent follow by the rounded formulas; with an unavailable (zero)
price the placeholder prices 152.89 and 354.65 are used instead.
`Math.round` is floor of the argument plus one half (`jsRound`). -/
theorem six_month_interpolation (cartTotal cur hist yearsAgo : ℝ) :
    (0 < cur → 0 < hist → 0 < yearsAgo →
      sixMonthGrowthOf Real.rpow cur hist yearsAgo =
        Real.rpow (cur / hist) (6 / (yearsAgo * 12)) ∧
      (transitionToInvestmentView Real.rpow cartTotal cur hist yearsAgo).historicalPrice6Months =
        cur / Real.rpow (cur / hist) (6 / (yearsAgo * 12)) ∧
      (transitionToInvestmentView Real.rpow cartTotal cur hist yearsAgo).currentPrice = cur ∧
      (transitionToInvestmentView Real.rpow cartTotal cur hist yearsAgo).futureValue6Months =
        (jsRound (cartTotal *
          (cur / (transitionToInvestmentView Real.rpow cartTotal cur hist yearsAgo).historicalPrice6Months) * 100) : ℝ) / 100 ∧
      (transitionToInvestmentView Real.rpow cartTotal cur hist yearsAgo).growthPercent6Months =
        (jsRound ((cur / (transitionToInvestmentView Real.rpow cartTotal cur hist yearsAgo).historicalPrice6Months - 1) * 100 * 10) : ℝ) / 10) ∧
    (cur = 0 ∨ hist = 0 →
      (transitionToInvestmentView Real.rpow cartTotal cur hist yearsAgo).historicalPrice6Months = 15289 / 100 ∧
      (transitionToInvestmentView Real.rpow cartTotal cur hist yearsAgo).currentPrice = 35465 / 100) := by
  constructor
  · intro hc hh _hy
    have hx : (0 : ℝ) ≤ cur / hist := le_of_lt (div_pos hc hh)
    have hpow : sixMonthGrowthOf Real.rpow cur hist yearsAgo =
        Real.rpow (cur / hist) (6 / (yearsAgo * 12)) := by
      unfold sixMonthGrowthOf
      show ((cur / hist) ^ ((1 : ℝ) / (yearsAgo * 12))) ^ (6 : ℝ) =
        (cur / hist) ^ ((6 : ℝ) / (yearsAgo * 12))
      rw [← Real.rpow_mul hx]
      congr 1
      ring
    have hv : transitionToInvestmentView Real.rpow cartTotal cur hist yearsAgo =
        { historicalPrice6Months := cur / sixMonthGrowthOf Real.rpow cur hist yearsAgo,
          currentPrice := cur,
          futureValue6Months :=
            (jsRound (cartTotal * (cur / (cur / sixMonthGrowthOf Real.rpow cur hist yearsAgo)) * 100) : ℝ) / 100,
          growthPercent6Months :=
            (jsRound ((cur / (cur / sixMonthGrowthOf Real.rpow cur hist yearsAgo) - 1) * 100 * 10) : ℝ) / 10 } := by
      unfold transitionToInvestmentView
      rw [if_pos ⟨hc, hh⟩]
    rw [hv, hpow]
    exact ⟨rfl, rfl, rfl, rfl, rfl⟩
  · intro hz
    have hneg : ¬(0 < cur ∧ 0 < hist) := by
      rintro ⟨hc, hh⟩
      cases hz with
      | inl h => rw [h] at hc; exact lt_irrefl 0 hc
      | inr h => rw [h] at hh; exact lt_irrefl 0 hh
    have hv : transitionToInvestmentView Real.rpow cartTotal cur hist yearsAgo =
        { historicalPrice6Months := (15289 : ℝ) / 100,
          currentPrice := (35465 : ℝ) / 100,
          futureValue6Months :=
            (jsRound (cartTotal * (((35465 : ℝ) / 100) / ((15289 : ℝ) / 100)) * 100) : ℝ) / 100,
          growthPercent6Months :=
            (jsRound ((((35465 : ℝ) / 100) / ((15289 : ℝ) / 100) - 1) * 100 * 10) : ℝ) / 10 } := by
      unfold transitionToInvestmentView
      rw [if_neg hneg]
    rw [hv]
    exact ⟨rfl, rfl⟩

/-- Witness for C8: the positive branch at equal prices 2 and 2 over
five years with a 100 cart total, and the placeholder branch at a zero
current price. -/
theorem six_month_interpolation_witness :
    (sixMonthGrowthOf Real.rpow 2 2 5 = Real.rpow ((2 : ℝ) / 2) (6 / (5 * 12)) ∧
     (transitionToInvestmentView Real.rpow 100 2 2 5).historicalPrice6Months =
       2 / Real.rpow ((2 : ℝ) / 2) (6 / (5 * 12)) ∧
     (transitionToInvestmentView Real.rpow 100 2 2 5).currentPrice = 2 ∧
     (transitionToInvestmentView Real.rpow 100 2 2 5).futureValue6Months =
       (jsRound ((100 : ℝ) *
         (2 / (transitionToInvestmentView Real.rpow 100 2 2 5).historicalPrice6Months) * 100) : ℝ) / 100 ∧
     (transitionToInvestmentView Real.rpow 100 2 2 5).growthPercent6Months =
       (jsRound (((2 : ℝ) / (transitionToInvestmentView Real.rpow 100 2 2 5).historicalPrice6Months - 1) * 100 * 10) : ℝ) / 10) ∧
    ((transitionToInvestmentView Real.rpow 100 0 1 7).historicalPrice6Months = 15289 / 100 ∧
     (transitionToInvestmentView Real.rpow 100 0 1 7).currentPrice = 35465 / 100) :=
  ⟨(six_month_interpolation 100 2 2 5).1 (by norm_num) (by norm_num) (by norm_num),
   (six_month_interpolation 100 0 1 7).2 (Or.inl rfl)⟩

end GirlMath
